import Mathlib

/-!
A verification development for the go-vl53l0x time-of-flight sensor driver
(package `vl53l0x`, file `vl53l0x.go`).

The driver is embedded in two layers:

* a pure layer translating the arithmetic of the driver verbatim
  (timeout register codec, VCSEL period codec, macro-period / microsecond
  conversions, timing-budget accumulation, reference-SPAD map rebuild);
  Go machine integers (`uint8`/`uint16`/`uint32`) are modelled as `Nat`
  with explicit `% 256` / `% 65536` / `% 4294967296` at every point where
  the Go code truncates or can wrap;

* a monadic layer for the register-bus protocol.  The I2C transport is an
  oracle (`Env`): `busOk n` says whether the n-th bus transaction succeeds
  and `busVal n` is the raw data it returns; `clock k` is the value of the
  k-th wall-clock query (`time.Now()`), in nanoseconds.  The mutable
  `Vl53l0x` struct fields are the `Dev` part of the state `S`, which also
  records the trace of register writes.  Polling loops take their
  iteration bound from the `fuel` field of `S`; exhausting the fuel
  (result `none`) models a poll that is still running, never a return.
-/

/-! ## Register addresses (subset used by the embedded operations) -/

def SYSRANGE_START : Nat := 0x00
def SYSTEM_SEQUENCE_CONFIG : Nat := 0x01
def SYSTEM_INTERRUPT_CONFIG_GPIO : Nat := 0x0A
def GPIO_HV_MUX_ACTIVE_HIGH : Nat := 0x84
def SYSTEM_INTERRUPT_CLEAR : Nat := 0x0B
def RESULT_INTERRUPT_STATUS : Nat := 0x13
def RESULT_RANGE_STATUS : Nat := 0x14
def I2C_SLAVE_DEVICE_ADDRESS : Nat := 0x8A
def MSRC_CONFIG_CONTROL : Nat := 0x60
def PRE_RANGE_CONFIG_VALID_PHASE_LOW : Nat := 0x56
def PRE_RANGE_CONFIG_VALID_PHASE_HIGH : Nat := 0x57
def FINAL_RANGE_CONFIG_MIN_COUNT_RATE_RTN_LIMIT : Nat := 0x44
def PRE_RANGE_CONFIG_VCSEL_PERIOD : Nat := 0x50
def PRE_RANGE_CONFIG_TIMEOUT_MACROP_HI : Nat := 0x51
def FINAL_RANGE_CONFIG_VALID_PHASE_LOW : Nat := 0x47
def FINAL_RANGE_CONFIG_VALID_PHASE_HIGH : Nat := 0x48
def FINAL_RANGE_CONFIG_VCSEL_PERIOD : Nat := 0x70
def FINAL_RANGE_CONFIG_TIMEOUT_MACROP_HI : Nat := 0x71
def MSRC_CONFIG_TIMEOUT_MACROP : Nat := 0x46
def GLOBAL_CONFIG_VCSEL_WIDTH : Nat := 0x32
def GLOBAL_CONFIG_SPAD_ENABLES_REF_0 : Nat := 0xB0
def GLOBAL_CONFIG_REF_EN_START_SELECT : Nat := 0xB6
def DYNAMIC_SPAD_NUM_REQUESTED_REF_SPAD : Nat := 0x4E
def DYNAMIC_SPAD_REF_EN_START_OFFSET : Nat := 0x4F
def ALGO_PHASECAL_LIM : Nat := 0x30
def ALGO_PHASECAL_CONFIG_TIMEOUT : Nat := 0x30

/-! ## Register codec (pure) -/

/-- `decodeTimeout` from `vl53l0x.go`: sequence-step timeout in MCLKs from
a register value, format "(LSByte * 2^MSByte) + 1".  The Go computation is
on `uint16`, so the shift result and the final `+ 1` wrap modulo 2^16. -/
def decodeTimeout (regVal : Nat) : Nat :=
  let r := regVal % 65536
  (r % 256 * 2 ^ (r / 256) % 65536 + 1) % 65536

/-- The shift loop of `encodeTimeout`: divide `ls` by two, counting the
shifts in `ms`, until `ls` fits in one byte.  The Go loop condition is
`lsByte & 0xFFFFFF00 > 0`, i.e. `255 < ls`.  The fuel (64) strictly
exceeds the bit width of any reachable `ls`, so it is never exhausted. -/
def encodeTimeoutLoop : Nat → Nat → Nat → Nat × Nat
  | 0, ls, ms => (ls, ms)
  | fuel + 1, ls, ms =>
    if 255 < ls then encodeTimeoutLoop fuel (ls / 2) (ms + 1) else (ls, ms)

/-- `encodeTimeout` from `vl53l0x.go`: timeout register value from a
timeout in MCLKs (a `uint16`).  If the input is zero the result is zero;
otherwise subtract one, shift right until one byte remains, and pack the
shift count in the high byte. -/
def encodeTimeout (timeoutMclks : Nat) : Nat :=
  let t := timeoutMclks % 65536
  if 0 < t then
    let p := encodeTimeoutLoop 64 (t - 1) 0
    p.2 * 256 % 65536 ||| p.1 % 256
  else 0

/-- `decodeVcselPeriod` from `vl53l0x.go`: `(value + 1) << 1` on `uint8`. -/
def decodeVcselPeriod (value : Nat) : Nat :=
  (value % 256 + 1) * 2 % 256

/-- `encodeVcselPeriod` from `vl53l0x.go`: `periodPclks >> 1 - 1` on
`uint8` (wrapping when the halved period is zero). -/
def encodeVcselPeriod (periodPclks : Nat) : Nat :=
  (periodPclks % 256 / 2 + 255) % 256

/-! ## Timing model (pure) -/

/-- `calcMacroPeriod` from `vl53l0x.go`: macro period in nanoseconds from
a VCSEL period in PCLKs; `uint32` arithmetic,
`(uint32(vcselPeriodPclks)*2304*1655 + 500) / 1000`. -/
def calcMacroPeriod (vcselPeriodPclks : Nat) : Nat :=
  (vcselPeriodPclks % 65536 * 2304 * 1655 + 500) % 4294967296 / 1000

/-- `timeoutMclksToMicroseconds` from `vl53l0x.go` (`uint32` arithmetic). -/
def timeoutMclksToMicroseconds (timeoutPeriodMclks vcselPeriodPclks : Nat) : Nat :=
  let macroPeriodNsec := calcMacroPeriod vcselPeriodPclks
  (timeoutPeriodMclks % 65536 * macroPeriodNsec + macroPeriodNsec / 2) % 4294967296 / 1000

/-- `timeoutMicrosecondsToMclks` from `vl53l0x.go` (`uint32` arithmetic).
Note: in Go a zero macro period would panic with a division by zero; Lean
`Nat` division yields 0 there, a case unreachable from the call sites in
the driver's own flow at valid VCSEL periods. -/
def timeoutMicrosecondsToMclks (timeoutPeriodUsec vcselPeriodPclks : Nat) : Nat :=
  let macroPeriodNsec := calcMacroPeriod vcselPeriodPclks
  (timeoutPeriodUsec % 4294967296 * 1000 % 4294967296 + macroPeriodNsec / 2) % 4294967296
    / macroPeriodNsec

/-! ## Sequence step enables and timeouts (pure cores) -/

/-- `SequenceStepEnables` from `vl53l0x.go`. -/
structure SequenceStepEnables where
  TCC : Bool
  MSRC : Bool
  DSS : Bool
  PreRange : Bool
  FinalRange : Bool
deriving DecidableEq

/-- The bit decoding done by `getSequenceStepEnables` on the byte read
from `SYSTEM_SEQUENCE_CONFIG`. -/
def decodeSequenceStepEnables (sequenceConfig : Nat) : SequenceStepEnables :=
  let sc := sequenceConfig % 256
  { TCC := sc >>> 4 &&& 1 != 0
    DSS := sc >>> 3 &&& 1 != 0
    MSRC := sc >>> 2 &&& 1 != 0
    PreRange := sc >>> 6 &&& 1 != 0
    FinalRange := sc >>> 7 &&& 1 != 0 }

/-- `SequenceStepTimeouts` from `vl53l0x.go`. -/
structure SequenceStepTimeouts where
  PreRangeVcselPeriodPclks : Nat
  FinalRangeVcselPeriodPclks : Nat
  MsrcDssTccMclks : Nat
  PreRangeMclks : Nat
  FinalRangeMclks : Nat
  MsrcDssTccUsec : Nat
  PreRangeUsec : Nat
  FinalRangeUsec : Nat
deriving DecidableEq

/-- The arithmetic of `getSequenceStepTimeouts`, applied to the five
register values it reads (both VCSEL periods already decoded to PCLKs, as
`getVcselPulsePeriod` returns them).  When the pre-range step is enabled
the final-range MCLK count has the pre-range MCLK count subtracted
(`uint16` subtraction, wrapping) before the conversion to microseconds. -/
def computeSequenceStepTimeouts (enables : SequenceStepEnables)
    (preVcselPclks msrcU8 preRegU16 finalVcselPclks finalRegU16 : Nat) :
    SequenceStepTimeouts :=
  let msrcDssTccMclks := msrcU8 % 256 + 1
  let msrcDssTccUsec := timeoutMclksToMicroseconds msrcDssTccMclks preVcselPclks
  let preRangeMclks := decodeTimeout preRegU16
  let preRangeUsec := timeoutMclksToMicroseconds preRangeMclks preVcselPclks
  let finalRangeMclksRaw := decodeTimeout finalRegU16
  let finalRangeMclks :=
    if enables.PreRange then (finalRangeMclksRaw + 65536 - preRangeMclks) % 65536
    else finalRangeMclksRaw
  let finalRangeUsec := timeoutMclksToMicroseconds finalRangeMclks finalVcselPclks
  { PreRangeVcselPeriodPclks := preVcselPclks
    FinalRangeVcselPeriodPclks := finalVcselPclks
    MsrcDssTccMclks := msrcDssTccMclks
    PreRangeMclks := preRangeMclks
    FinalRangeMclks := finalRangeMclks
    MsrcDssTccUsec := msrcDssTccUsec
    PreRangeUsec := preRangeUsec
    FinalRangeUsec := finalRangeUsec }

/-! ## Timing budget accumulation (pure cores)

The overhead constants are declared per function in the Go source:
`SetMeasurementTimingBudget` (the "set" path) and
`getMeasurementTimingBudget` (the "get" path). -/

def setStartOverhead : Nat := 1320
def setEndOverhead : Nat := 960
def setMsrcOverhead : Nat := 660
def setTccOverhead : Nat := 590
def setDssOverhead : Nat := 690
def setPreRangeOverhead : Nat := 660
def setFinalRangeOverhead : Nat := 550
def MinTimingBudget : Nat := 20000

def getStartOverhead : Nat := 1910
def getEndOverhead : Nat := 960
def getMsrcOverhead : Nat := 660
def getTccOverhead : Nat := 590
def getDssOverhead : Nat := 690
def getPreRangeOverhead : Nat := 660
def getFinalRangeOverhead : Nat := 550

/-- The `usedBudgetUsec` accumulation of `SetMeasurementTimingBudget` up
to and including the fixed final-range overhead — the value compared
against the requested budget just before the final-range remainder is
computed.  All additions are `uint32` additions in Go, hence the final
reduction modulo 2^32 (the chain of wrapping additions equals one final
reduction). -/
def usedBudget (enables : SequenceStepEnables) (timeouts : SequenceStepTimeouts) : Nat :=
  let b0 := setStartOverhead + setEndOverhead
  let b1 := if enables.TCC then b0 + (timeouts.MsrcDssTccUsec + setTccOverhead) else b0
  let b2 :=
    if enables.DSS then b1 + 2 * (timeouts.MsrcDssTccUsec + setDssOverhead)
    else if enables.MSRC then b1 + (timeouts.MsrcDssTccUsec + setMsrcOverhead)
    else b1
  let b3 := if enables.PreRange then b2 + (timeouts.PreRangeUsec + setPreRangeOverhead) else b2
  let b4 := if enables.FinalRange then b3 + setFinalRangeOverhead else b3
  b4 % 4294967296

/-- The budget computed by `getMeasurementTimingBudget` (the "get"
overhead table; the final-range step contributes its timeout plus the
fixed overhead). -/
def getBudgetCalc (enables : SequenceStepEnables) (timeouts : SequenceStepTimeouts) : Nat :=
  let b0 := getStartOverhead + getEndOverhead
  let b1 := if enables.TCC then b0 + (timeouts.MsrcDssTccUsec + getTccOverhead) else b0
  let b2 :=
    if enables.DSS then b1 + 2 * (timeouts.MsrcDssTccUsec + getDssOverhead)
    else if enables.MSRC then b1 + (timeouts.MsrcDssTccUsec + getMsrcOverhead)
    else b1
  let b3 := if enables.PreRange then b2 + (timeouts.PreRangeUsec + getPreRangeOverhead) else b2
  let b4 := if enables.FinalRange then b3 + (timeouts.FinalRangeUsec + getFinalRangeOverhead) else b3
  b4 % 4294967296

/-- The value `SetMeasurementTimingBudget` writes to
`FINAL_RANGE_CONFIG_TIMEOUT_MACROP_HI`: the final-range remainder of the
budget converted to MCLKs, plus the pre-range MCLK count when the
pre-range step is enabled (`uint32` addition), truncated to `uint16` and
encoded. -/
def finalRangeTimeoutRegValue (budgetUsec : Nat) (enables : SequenceStepEnables)
    (timeouts : SequenceStepTimeouts) : Nat :=
  let finalRangeTimeoutUsec := budgetUsec - usedBudget enables timeouts
  let finalRangeTimeoutMclks :=
    timeoutMicrosecondsToMclks finalRangeTimeoutUsec timeouts.FinalRangeVcselPeriodPclks
  let m :=
    if enables.PreRange then (finalRangeTimeoutMclks + timeouts.PreRangeMclks) % 4294967296
    else finalRangeTimeoutMclks
  encodeTimeout (m % 65536)

/-- The value `SetVcselPulsePeriod` (final-range period type) writes to
`FINAL_RANGE_CONFIG_TIMEOUT_MACROP_HI`: the current final-range timeout
re-expressed at the new period, plus the pre-range MCLK count when the
pre-range step is enabled (`uint32` addition), truncated to `uint16` and
encoded. -/
def vcselFinalRangeRegValue (enables : SequenceStepEnables)
    (timeouts : SequenceStepTimeouts) (periodPclks : Nat) : Nat :=
  let newFinalRangeTimeoutMclks :=
    timeoutMicrosecondsToMclks timeouts.FinalRangeUsec periodPclks
  let m :=
    if enables.PreRange then (newFinalRangeTimeoutMclks + timeouts.PreRangeMclks) % 4294967296
    else newFinalRangeTimeoutMclks
  encodeTimeout (m % 65536)

/-! ## Error taxonomy and write events for the monadic layer -/

/-- Error taxonomy of the spec.  The Go code returns untyped
`errors.New` values; bus transport failures are `busErr`, the poll
expiry of `waitUntilOrTimeout` is `timeoutExpired` (carrying the polled
register and the last byte read, as the Go message does), and
caller-parameter rejections are `validation` with the Go message. -/
inductive Err where
  | busErr : Err
  | timeoutExpired : Nat → Nat → Err
  | validation : String → Err
deriving DecidableEq

def Err.isTimeoutErr : Err → Bool
  | .timeoutExpired _ _ => true
  | _ => false

def Err.isValidation : Err → Bool
  | .validation _ => true
  | _ => false

/-- One recorded register write: 8-bit, 16-bit, 32-bit, or a multi-byte
block write starting at a register. -/
inductive WriteEv where
  | w8 : Nat → Nat → WriteEv
  | w16 : Nat → Nat → WriteEv
  | w32 : Nat → Nat → WriteEv
  | wN : Nat → List Nat → WriteEv
deriving DecidableEq

/-- The mutable fields of the Go `Vl53l0x` struct.  `ioTimeoutNs` is the
`time.Duration` field in nanoseconds. -/
structure Dev where
  stopVariable : Nat
  measurementTimingBudgetUsec : Nat
  ioTimeoutNs : Nat
deriving DecidableEq

/-- The external world: bus transactions succeed or fail by index
(`busOk`), return raw data by index (`busVal`), and the wall clock
returns nanosecond instants by query index (`clock`). -/
structure Env where
  busOk : Nat → Bool
  busVal : Nat → Nat
  clock : Nat → Nat

/-- Run-time state threaded by the monadic layer: device fields, the bus
transaction counter, the wall-clock query counter, the iteration bound
for polling loops, and the trace of successful register writes. -/
structure S where
  dev : Dev
  opIdx : Nat
  timeIdx : Nat
  fuel : Nat
  writes : List WriteEv
deriving DecidableEq

/-- The driver monad: given the environment and state, either diverge in
a poll (`none`) or return a Go-style result together with the state as
left by the operation (Go methods mutate the receiver even on error). -/
def M (α : Type) : Type :=
  Env → S → Option (Except Err α × S)

def pureM {α : Type} (a : α) : M α := fun _ s => some (Except.ok a, s)

def bindM {α β : Type} (x : M α) (f : α → M β) : M β := fun env s =>
  match x env s with
  | none => none
  | some (Except.error e, s1) => some (Except.error e, s1)
  | some (Except.ok a, s1) => f a env s1

instance : Monad M where
  pure := pureM
  bind := bindM

def throwErr {α : Type} (e : Err) : M α := fun _ s => some (Except.error e, s)

/-! ## Bus primitives.

Each read or write is one oracle transaction.  `readRegU16` performs a
register-address write followed by a two-byte read in Go; the pair is
modelled as a single transaction returning an arbitrary 16-bit value.
On a failed read Go's transport returns the zero value for the data. -/

def readRegU8 (_reg : Nat) : M Nat := fun env s =>
  if env.busOk s.opIdx then
    some (Except.ok (env.busVal s.opIdx % 256), { s with opIdx := s.opIdx + 1 })
  else some (Except.error Err.busErr, { s with opIdx := s.opIdx + 1 })

def readRegU16 (_reg : Nat) : M Nat := fun env s =>
  if env.busOk s.opIdx then
    some (Except.ok (env.busVal s.opIdx % 65536), { s with opIdx := s.opIdx + 1 })
  else some (Except.error Err.busErr, { s with opIdx := s.opIdx + 1 })

/-- `readRegBytes` into a buffer of `n` bytes (byte `j` of the oracle
word is byte `j` of the buffer). -/
def readRegBytesN (_reg n : Nat) : M (List Nat) := fun env s =>
  if env.busOk s.opIdx then
    some (Except.ok ((List.range n).map fun j => env.busVal s.opIdx / 256 ^ j % 256),
      { s with opIdx := s.opIdx + 1 })
  else some (Except.error Err.busErr, { s with opIdx := s.opIdx + 1 })

def writeRegU8 (reg value : Nat) : M Unit := fun env s =>
  if env.busOk s.opIdx then
    some (Except.ok (),
      { s with opIdx := s.opIdx + 1, writes := s.writes ++ [WriteEv.w8 (reg % 256) (value % 256)] })
  else some (Except.error Err.busErr, { s with opIdx := s.opIdx + 1 })

def writeRegU16 (reg value : Nat) : M Unit := fun env s =>
  if env.busOk s.opIdx then
    some (Except.ok (),
      { s with opIdx := s.opIdx + 1, writes := s.writes ++ [WriteEv.w16 (reg % 256) (value % 65536)] })
  else some (Except.error Err.busErr, { s with opIdx := s.opIdx + 1 })

def writeRegU32 (reg value : Nat) : M Unit := fun env s =>
  if env.busOk s.opIdx then
    some (Except.ok (),
      { s with opIdx := s.opIdx + 1,
               writes := s.writes ++ [WriteEv.w32 (reg % 256) (value % 4294967296)] })
  else some (Except.error Err.busErr, { s with opIdx := s.opIdx + 1 })

def writeBytesM (reg : Nat) (buf : List Nat) : M Unit := fun env s =>
  if env.busOk s.opIdx then
    some (Except.ok (),
      { s with opIdx := s.opIdx + 1,
               writes := s.writes ++ [WriteEv.wN (reg % 256) (buf.map (· % 256))] })
  else some (Except.error Err.busErr, { s with opIdx := s.opIdx + 1 })

/-- `writeRegValues`: write a batch of (register, value) pairs in order,
stopping at the first failure. -/
def writeRegValues : List (Nat × Nat) → M Unit
  | [] => pureM ()
  | p :: rest => bindM (writeRegU8 p.1 p.2) fun _ => writeRegValues rest

/-- `setTimeout` from `vl53l0x.go`: store the poll bound. -/
def setTimeoutM (ns : Nat) : M Unit := fun _ s =>
  some (Except.ok (), { s with dev := { s.dev with ioTimeoutNs := ns } })

def setStopVariableM (x : Nat) : M Unit := fun _ s =>
  some (Except.ok (), { s with dev := { s.dev with stopVariable := x } })

def storeBudgetM (b : Nat) : M Unit := fun _ s =>
  some (Except.ok (), { s with dev := { s.dev with measurementTimingBudgetUsec := b } })

def getStoredBudgetM : M Nat := fun _ s =>
  some (Except.ok s.dev.measurementTimingBudgetUsec, s)

/-! ## Reference-SPAD map rebuild (pure core of the loop in `Init`) -/

/-- `SpadInfo` from `vl53l0x.go`. -/
structure SpadInfo where
  Count : Nat
  TypeIsAperture : Bool
deriving DecidableEq

/-- One bit of the 6-byte SPAD map: `(spadMap[i/8] >> (i%8)) & 0x1`. -/
def spadMapBit (spadMap : List Nat) (i : Nat) : Nat :=
  spadMap.getD (i / 8) 0 >>> (i % 8) &&& 1

/-- Clear bit `i` of the 6-byte SPAD map:
`spadMap[i/8] &= ^(1 << (i % 8))` (byte complement). -/
def clearSpadBit (spadMap : List Nat) (i : Nat) : List Nat :=
  spadMap.set (i / 8) (spadMap.getD (i / 8) 0 &&& (255 - 1 <<< (i % 8)))

/-- One iteration of the SPAD-enable loop in `Init`: bits below the first
eligible SPAD, or once `count` bits have been accepted, are cleared;
otherwise a set bit is counted toward the enabled total.  The loop never
sets a bit. -/
def rebuildSpadMapStep (count firstSpadToEnable : Nat)
    (st : List Nat × Nat) (i : Nat) : List Nat × Nat :=
  if i < firstSpadToEnable || st.2 == count then (clearSpadBit st.1 i, st.2)
  else if spadMapBit st.1 i != 0 then (st.1, st.2 + 1)
  else (st.1, st.2)

/-- The SPAD-enable rebuild loop of `Init` over bits 0..47, starting with
`spadsEnabled = 0`; the first eligible SPAD is 12 for aperture type and 0
otherwise. -/
def rebuildSpadMap (spadMap : List Nat) (count : Nat) (typeIsAperture : Bool) : List Nat :=
  let firstSpadToEnable := if typeIsAperture then 12 else 0
  ((List.range 48).foldl (rebuildSpadMapStep count firstSpadToEnable) (spadMap, 0)).1

/-! ## Generic poll primitive -/

/-- `checkTimeoutExpired` from `vl53l0x.go`:
`ioTimeout > 0 && time.Now().Sub(startTime) > ioTimeout`.  Go durations
are signed; with `Nat` truncated subtraction a clock that moved backwards
gives 0, which compares the same way as a negative duration against a
positive timeout. -/
def checkTimeoutExpired (ioTimeoutNs startNs nowNs : Nat) : Bool :=
  decide (0 < ioTimeoutNs) && decide (ioTimeoutNs < nowNs - startNs)

/-- The loop body of `waitUntilOrTimeout`, by remaining iterations: read
the register, hand (value, read error) to `breakWhen`; a returned error
aborts, a true flag succeeds, otherwise the poll times out once
`checkTimeoutExpired` holds against the captured start instant, else it
repeats.  `none` models a loop still running when the bound is spent. -/
def waitGo (reg : Nat) (breakWhen : Nat → Option Err → Bool × Option Err)
    (startNs : Nat) : Nat → Env → S → Option (Except Err Unit × S)
  | 0, _, _ => none
  | fuel + 1, env, s =>
    let readOk := env.busOk s.opIdx
    let u8 := if readOk then env.busVal s.opIdx % 256 else 0
    let readErr : Option Err := if readOk then none else some Err.busErr
    let s1 := { s with opIdx := s.opIdx + 1 }
    match breakWhen u8 readErr with
    | (_, some e) => some (Except.error e, s1)
    | (flag, none) =>
      if flag then some (Except.ok (), s1)
      else
        let nowNs := env.clock s1.timeIdx
        let s2 := { s1 with timeIdx := s1.timeIdx + 1 }
        if checkTimeoutExpired s2.dev.ioTimeoutNs startNs nowNs then
          some (Except.error (Err.timeoutExpired reg u8), s2)
        else waitGo reg breakWhen startNs fuel env s2

/-- `waitUntilOrTimeout` from `vl53l0x.go`: capture the start instant
(`startTimeout`, one wall-clock query) and run the poll loop. -/
def waitUntilOrTimeout (reg : Nat)
    (breakWhen : Nat → Option Err → Bool × Option Err) : M Unit := fun env s =>
  let startNs := env.clock s.timeIdx
  waitGo reg breakWhen startNs s.fuel env { s with timeIdx := s.timeIdx + 1 }

/-! ## Component operations -/

/-- `VcselPeriodType` from `vl53l0x.go`. -/
inductive VcselPeriodType where
  | VcselPeriodPreRange
  | VcselPeriodFinalRange
deriving DecidableEq

/-- `getSequenceStepEnables`: read `SYSTEM_SEQUENCE_CONFIG` and decode. -/
def getSequenceStepEnables : M SequenceStepEnables := do
  let sequenceConfig ← readRegU8 SYSTEM_SEQUENCE_CONFIG
  pure (decodeSequenceStepEnables sequenceConfig)

/-- `getVcselPulsePeriod`: read the period register for the requested
type and decode to PCLKs. -/
def getVcselPulsePeriod (tpe : VcselPeriodType) : M Nat :=
  match tpe with
  | .VcselPeriodPreRange => do
      let u8 ← readRegU8 PRE_RANGE_CONFIG_VCSEL_PERIOD
      pure (decodeVcselPeriod u8)
  | .VcselPeriodFinalRange => do
      let u8 ← readRegU8 FINAL_RANGE_CONFIG_VCSEL_PERIOD
      pure (decodeVcselPeriod u8)

/-- `getSequenceStepTimeouts`: the five register reads in source order,
then the pure arithmetic. -/
def getSequenceStepTimeouts (enables : SequenceStepEnables) : M SequenceStepTimeouts := do
  let preVcsel ← getVcselPulsePeriod .VcselPeriodPreRange
  let msrcU8 ← readRegU8 MSRC_CONFIG_TIMEOUT_MACROP
  let preReg ← readRegU16 PRE_RANGE_CONFIG_TIMEOUT_MACROP_HI
  let finalVcsel ← getVcselPulsePeriod .VcselPeriodFinalRange
  let finalReg ← readRegU16 FINAL_RANGE_CONFIG_TIMEOUT_MACROP_HI
  pure (computeSequenceStepTimeouts enables preVcsel msrcU8 preReg finalVcsel finalReg)

/-- The decision `SetMeasurementTimingBudget` makes after its reads: when
the final-range step is enabled, reject the budget if the accumulated
`usedBudget` already exceeds it ("requested timeout too big"), otherwise
hand back the timeout-register write to perform; with final range
disabled nothing is written or stored. -/
def setBudgetCore (budgetUsec : Nat) (enables : SequenceStepEnables)
    (timeouts : SequenceStepTimeouts) : Except Err (Option (Nat × Nat)) :=
  if enables.FinalRange then
    if budgetUsec < usedBudget enables timeouts then
      Except.error (Err.validation "requested timeout too big")
    else
      Except.ok (some (FINAL_RANGE_CONFIG_TIMEOUT_MACROP_HI,
        finalRangeTimeoutRegValue budgetUsec enables timeouts))
  else Except.ok none

/-- `SetMeasurementTimingBudget` from `vl53l0x.go`: the minimum-budget
check comes first, before any bus transaction; then the enables and
timeouts are read and the core decision applied; on success the budget is
stored in the device struct. -/
def SetMeasurementTimingBudget (budgetUsec : Nat) : M Unit :=
  if budgetUsec < MinTimingBudget then
    throwErr (Err.validation "budget is lower than minimum allowed")
  else do
    let enables ← getSequenceStepEnables
    let timeouts ← getSequenceStepTimeouts enables
    match setBudgetCore budgetUsec enables timeouts with
    | Except.error e => throwErr e
    | Except.ok none => pure ()
    | Except.ok (some rv) => do
        writeRegU16 rv.1 rv.2
        storeBudgetM budgetUsec

/-- `getMeasurementTimingBudget` from `vl53l0x.go`: read enables and
timeouts, accumulate with the "get" overhead table, store and return. -/
def getMeasurementTimingBudget : M Nat := do
  let enables ← getSequenceStepEnables
  let timeouts ← getSequenceStepTimeouts enables
  let budgetUsec := getBudgetCalc enables timeouts
  storeBudgetM budgetUsec
  pure budgetUsec

/-- `performSingleRefCalibration` from `vl53l0x.go`. -/
def performSingleRefCalibration (vhvInitByte : Nat) : M Unit := do
  writeRegU8 SYSRANGE_START (1 ||| vhvInitByte)
  waitUntilOrTimeout RESULT_INTERRUPT_STATUS (fun checkReg err => (checkReg &&& 7 != 0, err))
  writeRegValues [(SYSTEM_INTERRUPT_CLEAR, 0x01), (SYSRANGE_START, 0x00)]

/-- `SetSignalRateLimit` with the already-encoded Q9.7 register value.
The Go function takes a `float32` in MCPS, validates [0, 511.99] and
writes `uint16(limitMcps * (1 << 7))`; floating point is not embedded, so
call sites supply the encoded value (0.25 MCPS encodes to 32). -/
def SetSignalRateLimitRaw (rawQ97 : Nat) : M Unit :=
  writeRegU16 FINAL_RANGE_CONFIG_MIN_COUNT_RATE_RTN_LIMIT rawQ97

/-- `getSpadInfo` from `vl53l0x.go`: the unlock/handshake sequence, the
nonzero-poll on register 0x83, the read of the count/type byte 0x92, and
the relock sequence. -/
def getSpadInfo : M SpadInfo := do
  writeRegValues [(0x80, 0x01), (0xFF, 0x01), (0x00, 0x00)]
  writeRegU8 0xFF 0x06
  let u8 ← readRegU8 0x83
  writeRegValues [(0x83, u8 ||| 0x04), (0xFF, 0x07), (0x81, 0x01)]
  writeRegU8 0x80 0x01
  writeRegValues [(0x94, 0x6b), (0x83, 0x00)]
  waitUntilOrTimeout 0x83 (fun checkReg err => (checkReg != 0, err))
  writeRegU8 0x83 0x01
  let tmp ← readRegU8 0x92
  let si : SpadInfo := { Count := tmp &&& 0x7F, TypeIsAperture := tmp >>> 7 &&& 1 != 0 }
  writeRegValues [(0x81, 0x00), (0xFF, 0x06)]
  let u8b ← readRegU8 0x83
  writeRegValues [(0x83, u8b &&& (255 - 0x04)), (0xFF, 0x01), (0x00, 0x01)]
  writeRegValues [(0xFF, 0x00), (0x80, 0x00)]
  pure si

/-- `readRangeMillimeters` from `vl53l0x.go`: poll the interrupt status
until its low three bits are non-zero, read the 16-bit range at
`RESULT_RANGE_STATUS + 10`, clear the interrupt. -/
def readRangeMillimeters : M Nat := do
  waitUntilOrTimeout RESULT_INTERRUPT_STATUS (fun checkReg err => (checkReg &&& 7 != 0, err))
  let rng ← readRegU16 (RESULT_RANGE_STATUS + 10)
  writeRegU8 SYSTEM_INTERRUPT_CLEAR 0x01
  pure rng

/-- `ReadRangeContinuousMillimeters` from `vl53l0x.go`: delegates
directly to `readRangeMillimeters`; the driver keeps no mode state and
performs no precondition check. -/
def ReadRangeContinuousMillimeters : M Nat :=
  readRangeMillimeters

/-- `SetAddress` from `vl53l0x.go`: write `newAddr & 0x7F` to
`I2C_SLAVE_DEVICE_ADDRESS`, then reopen the bus connection at the
unmasked `newAddr` (the reopened connection's address is the returned
value; the transport open itself is external). -/
def SetAddress (newAddr : Nat) : M Nat := do
  writeRegU8 I2C_SLAVE_DEVICE_ADDRESS (newAddr &&& 0x7F)
  pure newAddr

/-- `SetVcselPulsePeriod` from `vl53l0x.go` (both period types; the
final timing-budget reapplication and phase recalibration included). -/
def SetVcselPulsePeriod (tpe : VcselPeriodType) (periodPclks : Nat) : M Unit := do
  let vcselPeriodReg := encodeVcselPeriod periodPclks
  let enables ← getSequenceStepEnables
  let timeouts ← getSequenceStepTimeouts enables
  match tpe with
  | .VcselPeriodPreRange => do
      (match periodPclks with
       | 12 => writeRegU8 PRE_RANGE_CONFIG_VALID_PHASE_HIGH 0x18
       | 14 => writeRegU8 PRE_RANGE_CONFIG_VALID_PHASE_HIGH 0x30
       | 16 => writeRegU8 PRE_RANGE_CONFIG_VALID_PHASE_HIGH 0x40
       | 18 => writeRegU8 PRE_RANGE_CONFIG_VALID_PHASE_HIGH 0x50
       | _ => throwErr (Err.validation "invalid period"))
      writeRegU8 PRE_RANGE_CONFIG_VALID_PHASE_LOW 0x08
      writeRegU8 PRE_RANGE_CONFIG_VCSEL_PERIOD vcselPeriodReg
      let newPreRangeTimeoutMclks :=
        timeoutMicrosecondsToMclks timeouts.PreRangeUsec periodPclks
      writeRegU16 PRE_RANGE_CONFIG_TIMEOUT_MACROP_HI
        (encodeTimeout (newPreRangeTimeoutMclks % 65536))
      let newMsrcTimeoutMclks :=
        timeoutMicrosecondsToMclks timeouts.MsrcDssTccUsec periodPclks
      let msrcVal :=
        if 256 < newMsrcTimeoutMclks then 255
        else (newMsrcTimeoutMclks + 4294967295) % 4294967296
      writeRegU8 MSRC_CONFIG_TIMEOUT_MACROP msrcVal
  | .VcselPeriodFinalRange => do
      (match periodPclks with
       | 8 => writeRegValues [(FINAL_RANGE_CONFIG_VALID_PHASE_HIGH, 0x10),
                (FINAL_RANGE_CONFIG_VALID_PHASE_LOW, 0x08),
                (GLOBAL_CONFIG_VCSEL_WIDTH, 0x02), (ALGO_PHASECAL_CONFIG_TIMEOUT, 0x0C),
                (0xFF, 0x01), (ALGO_PHASECAL_LIM, 0x30), (0xFF, 0x00)]
       | 10 => writeRegValues [(FINAL_RANGE_CONFIG_VALID_PHASE_HIGH, 0x28),
                (FINAL_RANGE_CONFIG_VALID_PHASE_LOW, 0x08),
                (GLOBAL_CONFIG_VCSEL_WIDTH, 0x03), (ALGO_PHASECAL_CONFIG_TIMEOUT, 0x09),
                (0xFF, 0x01), (ALGO_PHASECAL_LIM, 0x20), (0xFF, 0x00)]
       | 12 => writeRegValues [(FINAL_RANGE_CONFIG_VALID_PHASE_HIGH, 0x38),
                (FINAL_RANGE_CONFIG_VALID_PHASE_LOW, 0x08),
                (GLOBAL_CONFIG_VCSEL_WIDTH, 0x03), (ALGO_PHASECAL_CONFIG_TIMEOUT, 0x08),
                (0xFF, 0x01), (ALGO_PHASECAL_LIM, 0x20), (0xFF, 0x00)]
       | 14 => writeRegValues [(FINAL_RANGE_CONFIG_VALID_PHASE_HIGH, 0x48),
                (FINAL_RANGE_CONFIG_VALID_PHASE_LOW, 0x08),
                (GLOBAL_CONFIG_VCSEL_WIDTH, 0x03), (ALGO_PHASECAL_CONFIG_TIMEOUT, 0x07),
                (0xFF, 0x01), (ALGO_PHASECAL_LIM, 0x20), (0xFF, 0x00)]
       | _ => throwErr (Err.validation "invalid period"))
      writeRegU8 FINAL_RANGE_CONFIG_VCSEL_PERIOD vcselPeriodReg
      writeRegU16 FINAL_RANGE_CONFIG_TIMEOUT_MACROP_HI
        (vcselFinalRangeRegValue enables timeouts periodPclks)
  let storedBudget ← getStoredBudgetM
  SetMeasurementTimingBudget storedBudget
  let sequenceConfig ← readRegU8 SYSTEM_SEQUENCE_CONFIG
  writeRegU8 SYSTEM_SEQUENCE_CONFIG 0x02
  performSingleRefCalibration 0x00
  writeRegU8 SYSTEM_SEQUENCE_CONFIG sequenceConfig

/-- The body of `Init` after the timeout assignment: data init, stop
variable capture, limit-check disable, signal-rate default, SPAD setup,
the vendor tuning table, GPIO interrupt config, budget bootstrap, and the
two-phase reference calibration. -/
def initTail : M Unit := do
  writeRegU8 0x88 0x00
  writeRegValues [(0x80, 0x01), (0xFF, 0x01), (0x00, 0x00)]
  let sv ← readRegU8 0x91
  setStopVariableM sv
  writeRegValues [(0x00, 0x01), (0xFF, 0x00), (0x80, 0x00)]
  let u8 ← readRegU8 MSRC_CONFIG_CONTROL
  writeRegU8 MSRC_CONFIG_CONTROL (u8 ||| 0x12)
  SetSignalRateLimitRaw 32
  writeRegU8 SYSTEM_SEQUENCE_CONFIG 0xFF
  let spadInfo ← getSpadInfo
  let spadMap ← readRegBytesN GLOBAL_CONFIG_SPAD_ENABLES_REF_0 6
  writeRegValues [(0xFF, 0x01), (DYNAMIC_SPAD_REF_EN_START_OFFSET, 0x00),
    (DYNAMIC_SPAD_NUM_REQUESTED_REF_SPAD, 0x2C), (0xFF, 0x00),
    (GLOBAL_CONFIG_REF_EN_START_SELECT, 0xB4)]
  writeBytesM GLOBAL_CONFIG_SPAD_ENABLES_REF_0
    (rebuildSpadMap spadMap spadInfo.Count spadInfo.TypeIsAperture)
  writeRegValues [(0xFF, 0x01), (0x00, 0x00)]
  writeRegValues [(0xFF, 0x00), (0x09, 0x00), (0x10, 0x00), (0x11, 0x00)]
  writeRegValues [(0x24, 0x01), (0x25, 0xFF), (0x75, 0x00)]
  writeRegValues [(0xFF, 0x01), (0x4E, 0x2C), (0x48, 0x00), (0x30, 0x20)]
  writeRegValues [(0xFF, 0x00), (0x30, 0x09), (0x54, 0x00), (0x31, 0x04), (0x32, 0x03),
    (0x40, 0x83), (0x46, 0x25), (0x60, 0x00), (0x27, 0x00), (0x50, 0x06), (0x51, 0x00),
    (0x52, 0x96), (0x56, 0x08), (0x57, 0x30), (0x61, 0x00), (0x62, 0x00), (0x64, 0x00),
    (0x65, 0x00), (0x66, 0xA0)]
  writeRegValues [(0xFF, 0x01), (0x22, 0x32), (0x47, 0x14), (0x49, 0xFF), (0x4A, 0x00)]
  writeRegValues [(0xFF, 0x00), (0x7A, 0x0A), (0x7B, 0x00), (0x78, 0x21)]
  writeRegValues [(0xFF, 0x01), (0x23, 0x34), (0x42, 0x00), (0x44, 0xFF), (0x45, 0x26),
    (0x46, 0x05), (0x40, 0x40), (0x0E, 0x06), (0x20, 0x1A), (0x43, 0x40)]
  writeRegValues [(0xFF, 0x00), (0x34, 0x03), (0x35, 0x44)]
  writeRegValues [(0xFF, 0x01), (0x31, 0x04), (0x4B, 0x09), (0x4C, 0x05), (0x4D, 0x04)]
  writeRegValues [(0xFF, 0x00), (0x44, 0x00), (0x45, 0x20), (0x47, 0x08), (0x48, 0x28),
    (0x67, 0x00), (0x70, 0x04), (0x71, 0x01), (0x72, 0xFE), (0x76, 0x00), (0x77, 0x00)]
  writeRegValues [(0xFF, 0x01), (0x0D, 0x01)]
  writeRegValues [(0xFF, 0x00), (0x80, 0x01), (0x01, 0xF8)]
  writeRegValues [(0xFF, 0x01), (0x8E, 0x01), (0x00, 0x01), (0xFF, 0x00), (0x80, 0x00)]
  writeRegU8 SYSTEM_INTERRUPT_CONFIG_GPIO 0x04
  let u8b ← readRegU8 GPIO_HV_MUX_ACTIVE_HIGH
  writeRegValues [(GPIO_HV_MUX_ACTIVE_HIGH, u8b &&& 0xEF), (SYSTEM_INTERRUPT_CLEAR, 0x01)]
  let u32 ← getMeasurementTimingBudget
  storeBudgetM u32
  writeRegU8 SYSTEM_SEQUENCE_CONFIG 0xE8
  let b ← getStoredBudgetM
  SetMeasurementTimingBudget b
  writeRegU8 SYSTEM_SEQUENCE_CONFIG 0x01
  performSingleRefCalibration 0x40
  writeRegU8 SYSTEM_SEQUENCE_CONFIG 0x02
  performSingleRefCalibration 0x00
  writeRegU8 SYSTEM_SEQUENCE_CONFIG 0xE8

/-- `Init` from `vl53l0x.go`: the very first action sets the I/O timeout
to 1000 ms (`time.Millisecond * 1000` = 10^9 ns), before any bus
transaction; everything else is `initTail`. -/
def Init : M Unit := do
  setTimeoutM 1000000000
  initTail

/-! ## Concrete environments and states used by witnesses -/

/-- A bus where every transaction succeeds, every read returns 0 (an idle
sensor whose interrupt-status bits never rise), and the wall clock
advances 2 seconds per query. -/
def envIdle : Env := ⟨fun _ => true, fun _ => 0, fun k => k * 2000000000⟩

/-- A bus where every transaction fails and the clock stands still. -/
def envDead : Env := ⟨fun _ => false, fun _ => 0, fun _ => 0⟩

/-- Fresh device with the 1-second timeout configured. -/
def sIdle : S := ⟨⟨0, 0, 1000000000⟩, 0, 0, 5, []⟩

/-- Fresh device with a zero (poll-forever) timeout. -/
def sZeroTimeout : S := ⟨⟨0, 0, 0⟩, 0, 0, 5, []⟩

/-- Fresh device with a positive timeout and a small poll bound. -/
def sPosTimeout : S := ⟨⟨0, 0, 1000000000⟩, 0, 0, 3, []⟩

/-- State in which a failed `Init` run on `envDead` ends. -/
def sInitEnd : S := ⟨⟨0, 0, 1000000000⟩, 1, 0, 5, []⟩

/-- The error component of a run result, if the run returned one. -/
def resultErrOf {α : Type} : Option (Except Err α × S) → Option Err
  | some (Except.error e, _) => some e
  | _ => none

/-- All five sequence steps enabled. -/
def enAll : SequenceStepEnables := ⟨true, true, true, true, true⟩

/-- Timeouts whose pre-range contribution alone exceeds a 20000 µs
budget. -/
def tBig : SequenceStepTimeouts := ⟨0, 0, 0, 0, 0, 0, 30000, 0⟩

/-! ## Helper predicates and lemmas (shared across claims) -/

/-- An operation leaves the `ioTimeout` field of the device alone. -/
def PreservesIoTimeout {α : Type} (m : M α) : Prop :=
  ∀ env s r s', m env s = some (r, s') → s'.dev.ioTimeoutNs = s.dev.ioTimeoutNs

theorem pres_pureM {α : Type} (a : α) : PreservesIoTimeout (pureM a) := by
  intro env s r s' h
  simp only [pureM, Option.some.injEq, Prod.mk.injEq] at h
  rw [← h.2]

theorem pres_pure {α : Type} (a : α) : PreservesIoTimeout (pure a : M α) :=
  pres_pureM a

theorem pres_throwErr {α : Type} (e : Err) : PreservesIoTimeout (throwErr e : M α) := by
  intro env s r s' h
  simp only [throwErr, Option.some.injEq, Prod.mk.injEq] at h
  rw [← h.2]

theorem pres_bind {α β : Type} {x : M α} {f : α → M β}
    (hx : PreservesIoTimeout x) (hf : ∀ a, PreservesIoTimeout (f a)) :
    PreservesIoTimeout (x >>= f) := by
  intro env s r s' h
  replace h : bindM x f env s = some (r, s') := h
  unfold bindM at h
  split at h
  · cases h
  · rename_i e s1 heq
    cases h
    exact hx env s _ _ heq
  · rename_i a s1 heq
    exact (hf a env s1 r s' h).trans (hx env s _ _ heq)

theorem pres_readRegU8 (reg : Nat) : PreservesIoTimeout (readRegU8 reg) := by
  intro env s r s' h
  unfold readRegU8 at h
  split at h <;> (cases h; rfl)

theorem pres_readRegU16 (reg : Nat) : PreservesIoTimeout (readRegU16 reg) := by
  intro env s r s' h
  unfold readRegU16 at h
  split at h <;> (cases h; rfl)

theorem pres_readRegBytesN (reg n : Nat) : PreservesIoTimeout (readRegBytesN reg n) := by
  intro env s r s' h
  unfold readRegBytesN at h
  split at h <;> (cases h; rfl)

theorem pres_writeRegU8 (reg v : Nat) : PreservesIoTimeout (writeRegU8 reg v) := by
  intro env s r s' h
  unfold writeRegU8 at h
  split at h <;> (cases h; rfl)

theorem pres_writeRegU16 (reg v : Nat) : PreservesIoTimeout (writeRegU16 reg v) := by
  intro env s r s' h
  unfold writeRegU16 at h
  split at h <;> (cases h; rfl)

theorem pres_writeBytesM (reg : Nat) (buf : List Nat) : PreservesIoTimeout (writeBytesM reg buf) := by
  intro env s r s' h
  unfold writeBytesM at h
  split at h <;> (cases h; rfl)

theorem pres_writeRegValues (l : List (Nat × Nat)) : PreservesIoTimeout (writeRegValues l) := by
  induction l with
  | nil => exact pres_pureM ()
  | cons p rest ih => exact pres_bind (pres_writeRegU8 p.1 p.2) fun _ => ih

theorem pres_setStopVariableM (x : Nat) : PreservesIoTimeout (setStopVariableM x) := by
  intro env s r s' h
  simp only [setStopVariableM, Option.some.injEq, Prod.mk.injEq] at h
  rw [← h.2]

theorem pres_storeBudgetM (b : Nat) : PreservesIoTimeout (storeBudgetM b) := by
  intro env s r s' h
  simp only [storeBudgetM, Option.some.injEq, Prod.mk.injEq] at h
  rw [← h.2]

theorem pres_getStoredBudgetM : PreservesIoTimeout getStoredBudgetM := by
  intro env s r s' h
  simp only [getStoredBudgetM, Option.some.injEq, Prod.mk.injEq] at h
  rw [← h.2]

theorem pres_waitGo (reg : Nat) (bw : Nat → Option Err → Bool × Option Err) (startNs : Nat) :
    ∀ fuel env s r s', waitGo reg bw startNs fuel env s = some (r, s') →
      s'.dev.ioTimeoutNs = s.dev.ioTimeoutNs := by
  intro fuel
  induction fuel with
  | zero => intro env s r s' h; simp [waitGo] at h
  | succ n ih =>
    intro env s r s' h
    simp only [waitGo] at h
    repeat' split at h
    all_goals first
      | (cases h; rfl)
      | (have hrec := ih env _ r s' h; exact hrec)

theorem pres_waitUntilOrTimeout (reg : Nat) (bw : Nat → Option Err → Bool × Option Err) :
    PreservesIoTimeout (waitUntilOrTimeout reg bw) := by
  intro env s r s' h
  replace h : waitGo reg bw (env.clock s.timeIdx) s.fuel env
      { s with timeIdx := s.timeIdx + 1 } = some (r, s') := h
  have hgo := pres_waitGo reg bw _ s.fuel env _ r s' h
  exact hgo

theorem pres_getSequenceStepEnables : PreservesIoTimeout getSequenceStepEnables :=
  pres_bind (pres_readRegU8 _) fun _ => pres_pure _

theorem pres_getVcselPulsePeriod (tpe : VcselPeriodType) :
    PreservesIoTimeout (getVcselPulsePeriod tpe) := by
  cases tpe <;> exact pres_bind (pres_readRegU8 _) fun _ => pres_pure _

theorem pres_getSequenceStepTimeouts (enables : SequenceStepEnables) :
    PreservesIoTimeout (getSequenceStepTimeouts enables) :=
  pres_bind (pres_getVcselPulsePeriod _) fun _ =>
    pres_bind (pres_readRegU8 _) fun _ =>
      pres_bind (pres_readRegU16 _) fun _ =>
        pres_bind (pres_getVcselPulsePeriod _) fun _ =>
          pres_bind (pres_readRegU16 _) fun _ => pres_pure _

theorem pres_SetMeasurementTimingBudget (b : Nat) :
    PreservesIoTimeout (SetMeasurementTimingBudget b) := by
  unfold SetMeasurementTimingBudget
  split
  · exact pres_throwErr _
  · apply pres_bind pres_getSequenceStepEnables
    intro en
    apply pres_bind (pres_getSequenceStepTimeouts en)
    intro t
    split
    · exact pres_throwErr _
    · exact pres_pure _
    · exact pres_bind (pres_writeRegU16 _ _) fun _ => pres_storeBudgetM _

theorem pres_getMeasurementTimingBudget : PreservesIoTimeout getMeasurementTimingBudget := by
  apply pres_bind pres_getSequenceStepEnables
  intro en
  apply pres_bind (pres_getSequenceStepTimeouts en)
  intro t
  exact pres_bind (pres_storeBudgetM _) fun _ => pres_pure _

theorem pres_performSingleRefCalibration (vhv : Nat) :
    PreservesIoTimeout (performSingleRefCalibration vhv) :=
  pres_bind (pres_writeRegU8 _ _) fun _ =>
    pres_bind (pres_waitUntilOrTimeout _ _) fun _ => pres_writeRegValues _

theorem pres_SetSignalRateLimitRaw (raw : Nat) :
    PreservesIoTimeout (SetSignalRateLimitRaw raw) :=
  pres_writeRegU16 _ _

theorem pres_getSpadInfo : PreservesIoTimeout getSpadInfo :=
  pres_bind (pres_writeRegValues _) fun _ =>
    pres_bind (pres_writeRegU8 _ _) fun _ =>
      pres_bind (pres_readRegU8 _) fun _ =>
        pres_bind (pres_writeRegValues _) fun _ =>
          pres_bind (pres_writeRegU8 _ _) fun _ =>
            pres_bind (pres_writeRegValues _) fun _ =>
              pres_bind (pres_waitUntilOrTimeout _ _) fun _ =>
                pres_bind (pres_writeRegU8 _ _) fun _ =>
                  pres_bind (pres_readRegU8 _) fun _ =>
                    pres_bind (pres_writeRegValues _) fun _ =>
                      pres_bind (pres_readRegU8 _) fun _ =>
                        pres_bind (pres_writeRegValues _) fun _ =>
                          pres_bind (pres_writeRegValues _) fun _ => pres_pure _

theorem pres_initTail : PreservesIoTimeout initTail :=
  pres_bind (pres_writeRegU8 _ _) fun _ =>
    pres_bind (pres_writeRegValues _) fun _ =>
      pres_bind (pres_readRegU8 _) fun _ =>
        pres_bind (pres_setStopVariableM _) fun _ =>
          pres_bind (pres_writeRegValues _) fun _ =>
            pres_bind (pres_readRegU8 _) fun _ =>
              pres_bind (pres_writeRegU8 _ _) fun _ =>
                pres_bind (pres_SetSignalRateLimitRaw _) fun _ =>
                  pres_bind (pres_writeRegU8 _ _) fun _ =>
                    pres_bind pres_getSpadInfo fun _ =>
                      pres_bind (pres_readRegBytesN _ _) fun _ =>
                        pres_bind (pres_writeRegValues _) fun _ =>
                          pres_bind (pres_writeBytesM _ _) fun _ =>
                            pres_bind (pres_writeRegValues _) fun _ =>
                              pres_bind (pres_writeRegValues _) fun _ =>
                                pres_bind (pres_writeRegValues _) fun _ =>
                                  pres_bind (pres_writeRegValues _) fun _ =>
                                    pres_bind (pres_writeRegValues _) fun _ =>
                                      pres_bind (pres_writeRegValues _) fun _ =>
                                        pres_bind (pres_writeRegValues _) fun _ =>
                                          pres_bind (pres_writeRegValues _) fun _ =>
                                            pres_bind (pres_writeRegValues _) fun _ =>
                                              pres_bind (pres_writeRegValues _) fun _ =>
                                                pres_bind (pres_writeRegValues _) fun _ =>
                                                  pres_bind (pres_writeRegValues _) fun _ =>
                                                    pres_bind (pres_writeRegValues _) fun _ =>
                                                      pres_bind (pres_writeRegValues _) fun _ =>
                                                        pres_bind (pres_writeRegU8 _ _) fun _ =>
                                                          pres_bind (pres_readRegU8 _) fun _ =>
                                                            pres_bind (pres_writeRegValues _) fun _ =>
                                                              pres_bind pres_getMeasurementTimingBudget fun _ =>
                                                                pres_bind (pres_storeBudgetM _) fun _ =>
                                                                  pres_bind (pres_writeRegU8 _ _) fun _ =>
                                                                    pres_bind pres_getStoredBudgetM fun _ =>
                                                                      pres_bind (pres_SetMeasurementTimingBudget _) fun _ =>
                                                                        pres_bind (pres_writeRegU8 _ _) fun _ =>
                                                                          pres_bind (pres_performSingleRefCalibration _) fun _ =>
                                                                            pres_bind (pres_writeRegU8 _ _) fun _ =>
                                                                              pres_bind (pres_performSingleRefCalibration _) fun _ =>
                                                                                pres_writeRegU8 _ _

/-- Decompose a monadic sequence that ended in an error: either the first
operation failed with that error and state, or it succeeded and the
continuation failed. -/
theorem bindM_err {α β : Type} {x : M α} {f : α → M β} {env : Env} {s : S} {e : Err} {s' : S} :
    bindM x f env s = some (Except.error e, s') →
    x env s = some (Except.error e, s') ∨
      ∃ a s1, x env s = some (Except.ok a, s1) ∧ f a env s1 = some (Except.error e, s') := by
  intro h
  unfold bindM at h
  split at h
  · cases h
  · rename_i e1 s1 heq
    cases h
    exact Or.inl heq
  · rename_i a s1 heq
    exact Or.inr ⟨a, s1, heq, h⟩

theorem readRegU16_err {reg : Nat} {env : Env} {s : S} {e : Err} {s' : S} :
    readRegU16 reg env s = some (Except.error e, s') → e = Err.busErr := by
  intro h
  unfold readRegU16 at h
  split at h
  · cases h
  · cases h; rfl

theorem writeRegU8_err {reg v : Nat} {env : Env} {s : S} {e : Err} {s' : S} :
    writeRegU8 reg v env s = some (Except.error e, s') → e = Err.busErr := by
  intro h
  unfold writeRegU8 at h
  split at h
  · cases h
  · cases h; rfl

theorem pureM_not_err {α : Type} {a : α} {env : Env} {s : S} {e : Err} {s' : S} :
    pureM a env s = some (Except.error e, s') → False := by
  intro h
  simp only [pureM, Option.some.injEq, Prod.mk.injEq] at h
  exact absurd h.1 (by simp)

/-- Errors escaping the poll loop through a pass-through `breakWhen`
(one that either forwards the read error or clears it) are either the bus
error or the loop's own timeout expiry. -/
theorem waitGo_err_shape (reg : Nat) (bw : Nat → Option Err → Bool × Option Err)
    (hbw : ∀ v eo, (bw v eo).2 = eo ∨ (bw v eo).2 = none) (startNs : Nat) :
    ∀ fuel env s e s', waitGo reg bw startNs fuel env s = some (Except.error e, s') →
      e = Err.busErr ∨ ∃ v, e = Err.timeoutExpired reg v := by
  intro fuel
  induction fuel with
  | zero => intro env s e s' h; simp [waitGo] at h
  | succ n ih =>
    intro env s e s' h
    simp only [waitGo] at h
    split at h
    · rename_i fst e0 heq
      cases h
      rcases hbw _ _ with hp | hp <;> rw [heq] at hp <;> simp only at hp
      · cases hok : env.busOk s.opIdx <;> rw [hok] at hp <;> simp at hp
        exact Or.inl hp
      · cases hp
    · rename_i flag heq
      split at h
      · cases h
      · split at h
        · cases h
          exact Or.inr ⟨_, rfl⟩
        · have hrec := ih env _ e s' h
          exact hrec

/-- With a zero `ioTimeout` the poll loop can only fail with the bus
error forwarded by a pass-through `breakWhen`; its own expiry branch is
unreachable. -/
theorem waitGo_zero_err (reg : Nat) (bw : Nat → Option Err → Bool × Option Err)
    (hbw : ∀ v eo, (bw v eo).2 = eo ∨ (bw v eo).2 = none) (startNs : Nat) :
    ∀ fuel env s e s', s.dev.ioTimeoutNs = 0 →
      waitGo reg bw startNs fuel env s = some (Except.error e, s') → e = Err.busErr := by
  intro fuel
  induction fuel with
  | zero => intro env s e s' hT h; simp [waitGo] at h
  | succ n ih =>
    intro env s e s' hT h
    simp only [waitGo] at h
    split at h
    · rename_i fst e0 heq
      cases h
      rcases hbw _ _ with hp | hp <;> rw [heq] at hp <;> simp only at hp
      · cases hok : env.busOk s.opIdx <;> rw [hok] at hp <;> simp at hp
        exact hp
      · cases hp
    · rename_i flag heq
      split at h
      · cases h
      · split at h
        · rename_i hc
          simp [checkTimeoutExpired, hT] at hc
        · have hrec := ih env
            { s with opIdx := s.opIdx + 1, timeIdx := s.timeIdx + 1 } e s' hT h
          exact hrec

/-- Once the wall clock has advanced past the (positive) timeout while
the predicate keeps failing, the poll loop returns its expiry error. -/
theorem waitGo_expires (reg : Nat) (bw : Nat → Option Err → Bool × Option Err)
    (hbw : ∀ v eo, bw v eo = (false, none)) (startNs : Nat) :
    ∀ n fuel env s, 0 < s.dev.ioTimeoutNs → n < fuel →
      s.dev.ioTimeoutNs < env.clock (s.timeIdx + n) - startNs →
      ∃ v s', waitGo reg bw startNs fuel env s
        = some (Except.error (Err.timeoutExpired reg v), s') := by
  intro n
  induction n with
  | zero =>
    intro fuel env s hT hf hclk
    cases fuel with
    | zero => omega
    | succ m =>
      refine ⟨if env.busOk s.opIdx then env.busVal s.opIdx % 256 else 0,
        { s with opIdx := s.opIdx + 1, timeIdx := s.timeIdx + 1 }, ?_⟩
      have hc : checkTimeoutExpired s.dev.ioTimeoutNs startNs (env.clock s.timeIdx) = true := by
        simp only [checkTimeoutExpired, Bool.and_eq_true, decide_eq_true_eq]
        exact ⟨hT, by simpa using hclk⟩
      simp [waitGo, hbw, hc]
  | succ k ih =>
    intro fuel env s hT hf hclk
    cases fuel with
    | zero => omega
    | succ m =>
      by_cases hc : checkTimeoutExpired s.dev.ioTimeoutNs startNs (env.clock s.timeIdx) = true
      · refine ⟨if env.busOk s.opIdx then env.busVal s.opIdx % 256 else 0,
          { s with opIdx := s.opIdx + 1, timeIdx := s.timeIdx + 1 }, ?_⟩
        simp [waitGo, hbw, hc]
      · have heq : s.timeIdx + 1 + k = s.timeIdx + (k + 1) := by omega
        have hclk' : s.dev.ioTimeoutNs < env.clock (s.timeIdx + 1 + k) - startNs := by
          rw [heq]; exact hclk
        have hrec := ih m env { s with opIdx := s.opIdx + 1, timeIdx := s.timeIdx + 1 }
          hT (by omega) hclk'
        obtain ⟨v, s', hrun⟩ := hrec
        refine ⟨v, s', ?_⟩
        simp [waitGo, hbw, hc]
        exact hrun

/-! ## Claim theorems -/

set_option maxHeartbeats 4000000 in
set_option maxRecDepth 100000 in
theorem c1_roundtrip_aux : ∀ ls < 256, ∀ ms < 16, ls * 2 ^ ms + 1 ≤ 65535 →
    decodeTimeout (encodeTimeout (ls * 2 ^ ms + 1)) = ls * 2 ^ ms + 1 := by decide

/-- C1: for every mclks value m in [1, 65535] representable in the
"(LSByte * 2^MSByte) + 1" format (i.e. m = ls * 2^ms + 1 with ls one
byte), decodeTimeout (encodeTimeout m) = m; and encodeTimeout 0 = 0. -/
theorem c1_timeout_roundtrip :
    (∀ m : Nat, 1 ≤ m → m ≤ 65535 →
      (∃ ls ms : Nat, ls ≤ 255 ∧ m = ls * 2 ^ ms + 1) →
      decodeTimeout (encodeTimeout m) = m)
    ∧ encodeTimeout 0 = 0 := by
  constructor
  · rintro m h1 h2 ⟨ls, ms, hls, rfl⟩
    rcases Nat.eq_zero_or_pos ls with h0 | hpos
    · subst h0
      simp only [Nat.zero_mul, Nat.zero_add]
      decide
    · have hms : ms < 16 := by
        have hub : ls * 2 ^ ms ≤ 65534 := by omega
        have hle : 2 ^ ms ≤ ls * 2 ^ ms := Nat.le_mul_of_pos_left (2 ^ ms) hpos
        by_contra hge
        push_neg at hge
        have hpow : 2 ^ 16 ≤ 2 ^ ms := Nat.pow_le_pow_right (by norm_num) hge
        have h16 : (2 : Nat) ^ 16 = 65536 := by norm_num
        omega
      exact c1_roundtrip_aux ls (by omega) ms hms (by omega)
  · decide

theorem c1_timeout_roundtrip_witness :
    (1 ≤ 511 ∧ 511 ≤ 65535 ∧ (∃ ls ms : Nat, ls ≤ 255 ∧ 511 = ls * 2 ^ ms + 1))
    ∧ decodeTimeout (encodeTimeout 511) = 511 :=
  ⟨⟨by norm_num, by norm_num, ⟨255, 1, by norm_num, by norm_num⟩⟩,
    c1_timeout_roundtrip.1 511 (by norm_num) (by norm_num) ⟨255, 1, by norm_num, by norm_num⟩⟩

/-- C2: SetMeasurementTimingBudget rejects any budget below 20000 µs with
a ValidationError before touching the bus (the returned state is the
input state: no transaction was issued, for every environment); and when
the final-range step is enabled and the accumulated overhead-plus-step
sum already exceeds the requested budget, the post-read decision is the
ValidationError "requested timeout too big". -/
theorem c2_budget_validation :
    (∀ (env : Env) (s : S) (b : Nat), b < MinTimingBudget →
      SetMeasurementTimingBudget b env s
        = some (Except.error (Err.validation "budget is lower than minimum allowed"), s))
    ∧ (∀ (b : Nat) (en : SequenceStepEnables) (t : SequenceStepTimeouts),
        en.FinalRange = true → b < usedBudget en t →
        setBudgetCore b en t = Except.error (Err.validation "requested timeout too big")) := by
  constructor
  · intro env s b hb
    unfold SetMeasurementTimingBudget
    rw [if_pos hb]
    rfl
  · intro b en t hf hlt
    unfold setBudgetCore
    rw [if_pos hf, if_pos hlt]

/-- All-fail environment / fresh zero state for error-path witnesses. -/
def envAllFail : Env := ⟨fun _ => false, fun _ => 0, fun _ => 0⟩

theorem c2_budget_validation_witness :
    (19999 < MinTimingBudget
      ∧ SetMeasurementTimingBudget 19999 envAllFail sZeroTimeout
          = some (Except.error (Err.validation "budget is lower than minimum allowed"),
              sZeroTimeout))
    ∧ (enAll.FinalRange = true ∧ 20000 < usedBudget enAll tBig
      ∧ setBudgetCore 20000 enAll tBig
          = Except.error (Err.validation "requested timeout too big")) :=
  ⟨⟨by decide, c2_budget_validation.1 envAllFail sZeroTimeout 19999 (by decide)⟩,
   ⟨rfl, by decide, c2_budget_validation.2 20000 enAll tBig rfl (by decide)⟩⟩

/-- C3 counterexample: the macro-period function of the code, at a VCSEL
period of 14 PCLKs, does not return 6667. -/
theorem c3_macro_period_counterexample : calcMacroPeriod 14 ≠ 6667 := by decide

/-- C3 (amended): the macro-period function computed with exact integer
arithmetic as (vcselPclks * 2304 * 1655 + 500) / 1000, applied to 14
PCLKs, returns 53384 (nanoseconds). -/
theorem c3_macro_period_amended : calcMacroPeriod 14 = 53384 := by decide

/-- C4: with the pre-range step enabled, the derived final-range MCLK
count has the pre-range MCLK count subtracted (uint16 wrap) before the
conversion to microseconds, and both final-range timeout register writes
— the one in SetMeasurementTimingBudget and the one in
SetVcselPulsePeriod for the final-range period type — add the pre-range
MCLK count back before encoding. -/
theorem c4_final_range_pre_range_adjust :
    ∀ (en : SequenceStepEnables) (pv mu pr fv fr b p : Nat) (t : SequenceStepTimeouts),
      en.PreRange = true →
      ((computeSequenceStepTimeouts en pv mu pr fv fr).FinalRangeMclks
          = (decodeTimeout fr + 65536 - decodeTimeout pr) % 65536
        ∧ (computeSequenceStepTimeouts en pv mu pr fv fr).FinalRangeUsec
          = timeoutMclksToMicroseconds
              ((decodeTimeout fr + 65536 - decodeTimeout pr) % 65536) fv)
      ∧ finalRangeTimeoutRegValue b en t
          = encodeTimeout ((timeoutMicrosecondsToMclks (b - usedBudget en t)
              t.FinalRangeVcselPeriodPclks + t.PreRangeMclks) % 4294967296 % 65536)
      ∧ vcselFinalRangeRegValue en t p
          = encodeTimeout ((timeoutMicrosecondsToMclks t.FinalRangeUsec p
              + t.PreRangeMclks) % 4294967296 % 65536) := by
  intro en pv mu pr fv fr b p t h
  refine ⟨⟨?_, ?_⟩, ?_, ?_⟩ <;>
    simp [computeSequenceStepTimeouts, finalRangeTimeoutRegValue, vcselFinalRangeRegValue, h]

/-- Enables with only pre-range on, for the C4 witness. -/
def enPre : SequenceStepEnables := ⟨false, false, false, true, false⟩

/-- Zeroed timeouts record, for the C4 witness. -/
def tZero : SequenceStepTimeouts := ⟨0, 0, 0, 0, 0, 0, 0, 0⟩

theorem c4_final_range_pre_range_adjust_witness :
    enPre.PreRange = true
    ∧ (computeSequenceStepTimeouts enPre 0 0 7 0 9).FinalRangeMclks
        = (decodeTimeout 9 + 65536 - decodeTimeout 7) % 65536
    ∧ vcselFinalRangeRegValue enPre tZero 10
        = encodeTimeout ((timeoutMicrosecondsToMclks tZero.FinalRangeUsec 10
            + tZero.PreRangeMclks) % 4294967296 % 65536) :=
  ⟨rfl,
   (c4_final_range_pre_range_adjust enPre 0 0 7 0 9 0 10 tZero rfl).1.1,
   (c4_final_range_pre_range_adjust enPre 0 0 7 0 9 0 10 tZero rfl).2.2⟩

/-- C5: the budget read path uses a fixed start overhead of 1910 µs, the
budget write path 1320 µs, and every other overhead constant (End 960,
Msrc 660, Tcc 590, Dss 690, PreRange 660, FinalRange 550) coincides
between the two paths. -/
theorem c5_overhead_tables :
    getStartOverhead = 1910 ∧ setStartOverhead = 1320
    ∧ getEndOverhead = setEndOverhead ∧ setEndOverhead = 960
    ∧ getMsrcOverhead = setMsrcOverhead ∧ setMsrcOverhead = 660
    ∧ getTccOverhead = setTccOverhead ∧ setTccOverhead = 590
    ∧ getDssOverhead = setDssOverhead ∧ setDssOverhead = 690
    ∧ getPreRangeOverhead = setPreRangeOverhead ∧ setPreRangeOverhead = 660
    ∧ getFinalRangeOverhead = setFinalRangeOverhead ∧ setFinalRangeOverhead = 550 := by
  decide

set_option maxRecDepth 40000 in
/-- C7 counterexample: the SPAD rebuild loop never sets bits, so starting
from an all-zero device map with count 5 and non-aperture type, bit 0 of
the result is not set — the rebuilt map does not have bits 0–4 set. -/
theorem c7_spad_counterexample :
    spadMapBit (rebuildSpadMap [0, 0, 0, 0, 0, 0] 5 false) 0 ≠ 1 := by decide

set_option maxRecDepth 100000 in
/-- C7 (amended): the rebuild only clears bits of the device-read map;
when the device map has all 48 bits set (bytes 0xFF), count = 5 and
aperture type false give exactly bits 0 through 4 set and every higher
bit cleared. -/
theorem c7_spad_rebuild_amended :
    ∀ i < 48, spadMapBit (rebuildSpadMap [255, 255, 255, 255, 255, 255] 5 false) i
      = if i < 5 then 1 else 0 := by decide

theorem c7_spad_rebuild_amended_witness :
    (4 < 48 ∧ spadMapBit (rebuildSpadMap [255, 255, 255, 255, 255, 255] 5 false) 4
      = if 4 < 5 then 1 else 0)
    ∧ (7 < 48 ∧ spadMapBit (rebuildSpadMap [255, 255, 255, 255, 255, 255] 5 false) 7
      = if 7 < 5 then 1 else 0) :=
  ⟨⟨by norm_num, c7_spad_rebuild_amended 4 (by norm_num)⟩,
   ⟨by norm_num, c7_spad_rebuild_amended 7 (by norm_num)⟩⟩

/-- C6 counterexample: on an idle sensor (interrupt-status register
always 0, the device never signals a sample) with the standard 1-second
timeout, ReadRangeContinuousMillimeters is not rejected with a
ValidationError: it runs the poll and fails with the poll-expiry
TimeoutError. -/
theorem c6_idle_read_counterexample :
    resultErrOf (ReadRangeContinuousMillimeters envIdle sIdle)
      = some (Err.timeoutExpired RESULT_INTERRUPT_STATUS 0)
    ∧ Err.isValidation (Err.timeoutExpired RESULT_INTERRUPT_STATUS 0) = false :=
  ⟨rfl, rfl⟩

/-- C6 (amended): ReadRangeContinuousMillimeters performs no device-state
validation at all — whatever the environment and state, an error it
returns is never a ValidationError; called while idle it polls the
interrupt-status register and fails with a TimeoutError (or a bus error),
never a contract rejection. -/
theorem c6_no_validation_error :
    ∀ (env : Env) (s : S) (e : Err) (s' : S),
      ReadRangeContinuousMillimeters env s = some (Except.error e, s') →
      Err.isValidation e = false := by
  intro env s e s' h
  replace h : bindM
      (waitUntilOrTimeout RESULT_INTERRUPT_STATUS fun checkReg err => (checkReg &&& 7 != 0, err))
      (fun _ => bindM (readRegU16 (RESULT_RANGE_STATUS + 10)) fun rng =>
        bindM (writeRegU8 SYSTEM_INTERRUPT_CLEAR 0x01) fun _ => pureM rng) env s
      = some (Except.error e, s') := h
  rcases bindM_err h with h1 | ⟨a, s1, hok1, h2⟩
  · replace h1 : waitGo RESULT_INTERRUPT_STATUS
        (fun checkReg err => (checkReg &&& 7 != 0, err)) (env.clock s.timeIdx) s.fuel env
        { s with timeIdx := s.timeIdx + 1 } = some (Except.error e, s') := h1
    rcases waitGo_err_shape RESULT_INTERRUPT_STATUS _ (fun v eo => Or.inl rfl)
        (env.clock s.timeIdx) s.fuel env _ e s' h1 with rfl | ⟨v, rfl⟩ <;> rfl
  · rcases bindM_err h2 with h3 | ⟨b, s2, hok2, h4⟩
    · rw [readRegU16_err h3]; rfl
    · rcases bindM_err h4 with h5 | ⟨c, s3, hok3, h6⟩
      · rw [writeRegU8_err h5]; rfl
      · exact absurd h6 pureM_not_err

theorem c6_no_validation_error_witness :
    ReadRangeContinuousMillimeters envIdle sIdle
      = some (Except.error (Err.timeoutExpired RESULT_INTERRUPT_STATUS 0),
          ⟨⟨0, 0, 1000000000⟩, 1, 2, 5, []⟩)
    ∧ Err.isValidation (Err.timeoutExpired RESULT_INTERRUPT_STATUS 0) = false :=
  ⟨rfl, c6_no_validation_error envIdle sIdle _ _ rfl⟩

/-- C8: the generic poll primitive.  With a zero configured ioTimeout and
a pass-through predicate closure, a poll never fails with a TimeoutError
(it repeats until the predicate holds or forwards an I/O error); with a
positive ioTimeout, once the wall clock measured against the captured
start instant exceeds the timeout while the predicate keeps failing, the
poll fails with a TimeoutError. -/
theorem c8_poll_timeout_behavior :
    (∀ (reg : Nat) (bw : Nat → Option Err → Bool × Option Err) (env : Env) (s : S)
        (e : Err) (s' : S),
      (∀ v eo, (bw v eo).2 = eo ∨ (bw v eo).2 = none) →
      s.dev.ioTimeoutNs = 0 →
      waitUntilOrTimeout reg bw env s = some (Except.error e, s') →
      Err.isTimeoutErr e = false)
    ∧ (∀ (reg : Nat) (bw : Nat → Option Err → Bool × Option Err) (env : Env) (s : S) (n : Nat),
      0 < s.dev.ioTimeoutNs →
      (∀ v eo, bw v eo = (false, none)) →
      n < s.fuel →
      s.dev.ioTimeoutNs < env.clock (s.timeIdx + 1 + n) - env.clock s.timeIdx →
      ∃ v s', waitUntilOrTimeout reg bw env s
        = some (Except.error (Err.timeoutExpired reg v), s')) := by
  constructor
  · intro reg bw env s e s' hbw hT h
    replace h : waitGo reg bw (env.clock s.timeIdx) s.fuel env
        { s with timeIdx := s.timeIdx + 1 } = some (Except.error e, s') := h
    have hbe := waitGo_zero_err reg bw hbw (env.clock s.timeIdx) s.fuel env
      { s with timeIdx := s.timeIdx + 1 } e s' hT h
    rw [hbe]; rfl
  · intro reg bw env s n hT hbw hf hclk
    have hrun := waitGo_expires reg bw hbw (env.clock s.timeIdx) n s.fuel env
      { s with timeIdx := s.timeIdx + 1 } hT hf hclk
    exact hrun

theorem c8_poll_timeout_behavior_witness :
    Err.isTimeoutErr Err.busErr = false
    ∧ ∃ v s', waitUntilOrTimeout RESULT_INTERRUPT_STATUS (fun _ _ => (false, none))
        envIdle sPosTimeout
        = some (Except.error (Err.timeoutExpired RESULT_INTERRUPT_STATUS v), s') :=
  ⟨c8_poll_timeout_behavior.1 RESULT_INTERRUPT_STATUS
      (fun checkReg err => (checkReg &&& 7 != 0, err)) envDead sZeroTimeout Err.busErr
      ⟨⟨0, 0, 0⟩, 1, 1, 5, []⟩ (fun v eo => Or.inl rfl) rfl rfl,
   c8_poll_timeout_behavior.2 RESULT_INTERRUPT_STATUS (fun _ _ => (false, none))
      envIdle sPosTimeout 0 (by decide) (fun _ _ => rfl) (by decide) (by decide)⟩

/-- C9: Init sets the device ioTimeout field to 1000 ms (10^9 ns) as its
first action; whatever the bus does afterwards — including a failure on
the very first transaction — any state in which Init returns has
ioTimeout = 1 second, so every subsequent polling loop is bounded by it
(the field is only ever written by the non-exported setTimeout). -/
theorem c9_init_sets_io_timeout :
    ∀ (env : Env) (s : S) (r : Except Err Unit) (s' : S),
      Init env s = some (r, s') → s'.dev.ioTimeoutNs = 1000000000 := by
  intro env s r s' h
  replace h : initTail env { s with dev := { s.dev with ioTimeoutNs := 1000000000 } }
      = some (r, s') := h
  have h2 := pres_initTail env _ r s' h
  rw [h2]

theorem c9_init_sets_io_timeout_witness :
    Init envDead sZeroTimeout = some (Except.error Err.busErr, sInitEnd)
    ∧ sInitEnd.dev.ioTimeoutNs = 1000000000 :=
  ⟨rfl, c9_init_sets_io_timeout envDead sZeroTimeout _ _ rfl⟩

/-- C10: SetAddress writes only the low 7 bits of newAddr
(newAddr & 0x7F) to the I2C_SLAVE_DEVICE_ADDRESS register — an address
with the top bit set is silently truncated in the register write — while
the replacement bus connection is opened with the unmasked newAddr. -/
theorem c10_set_address_masks_register :
    ∀ (env : Env) (s : S) (newAddr : Nat),
      env.busOk s.opIdx = true →
      SetAddress newAddr env s = some (Except.ok newAddr,
        { s with opIdx := s.opIdx + 1,
                 writes := s.writes ++ [WriteEv.w8 (I2C_SLAVE_DEVICE_ADDRESS % 256)
                   ((newAddr &&& 0x7F) % 256)] }) := by
  intro env s newAddr h
  replace goal :
      bindM (writeRegU8 I2C_SLAVE_DEVICE_ADDRESS (newAddr &&& 0x7F))
        (fun _ => pureM newAddr) env s
      = some (Except.ok newAddr,
        { s with opIdx := s.opIdx + 1,
                 writes := s.writes ++ [WriteEv.w8 (I2C_SLAVE_DEVICE_ADDRESS % 256)
                   ((newAddr &&& 0x7F) % 256)] }) := by
    unfold bindM writeRegU8
    rw [if_pos h]
    rfl
  exact goal

theorem c10_set_address_masks_register_witness :
    (envIdle.busOk sIdle.opIdx = true)
    ∧ SetAddress 0xAA envIdle sIdle = some (Except.ok 0xAA,
        { sIdle with opIdx := sIdle.opIdx + 1,
                     writes := sIdle.writes ++ [WriteEv.w8 (I2C_SLAVE_DEVICE_ADDRESS % 256)
                       ((0xAA &&& 0x7F) % 256)] })
    ∧ (0xAA &&& 0x7F) % 256 = 0x2A :=
  ⟨rfl, c10_set_address_masks_register envIdle sIdle 0xAA rfl, by decide⟩
